import Mathlib

/-!
Shallow embedding of the domain logic of the SmartCity waste-management
frontend (`src/Home.jsx`): the role-detection / access-gating flow, the
report-submission handler, the marker-color selection, and the haversine
distance function of the second app variant.

React `useState` fields become fields of an explicit `HomeState`; each JS
handler becomes a pure function from the current state (plus the outcome of
any network call it performs) to the next state.  JS `null`/absent fields
become `Option`; JS string falsiness (`x || ""`) is modelled explicitly.
-/

open Real

/-- The `roleInfo` state object: `{ role, source, id, description }`.
`role` is always a string in the code (initial `"detecting"`, success
default `"user"`, failure `"guest"`); the other three may be `null`. -/
structure RoleInfo where
  role : String
  source : Option String
  id : Option String
  description : Option String
deriving Repr, DecidableEq

/-- The `reportPayload` state object `{ binId, note }`. -/
structure ReportPayload where
  binId : String
  note : String
deriving Repr, DecidableEq

/-- The `reportStatus` state object `{ type, text }` (or `null`). -/
structure ReportStatus where
  type : String
  text : String
deriving Repr, DecidableEq

/-- The component-local state of `Home` that the embedded handlers read and
write: `roleInfo`, `loading`, `error`, `manualIp`, `useManual`,
`showReport`, `reportPayload`, `reportStatus`. -/
structure HomeState where
  roleInfo : RoleInfo
  loading : Bool
  error : Option String
  manualIp : String
  useManual : Bool
  showReport : Bool
  reportPayload : ReportPayload
  reportStatus : Option ReportStatus
deriving Repr, DecidableEq

/-- The initial state set up by the `useState` calls at mount time
(`Home.jsx` lines 136-161): `role = "detecting"`, everything else
empty/null, `loading = true`. -/
def initialHomeState : HomeState where
  roleInfo := { role := "detecting", source := none, id := none, description := none }
  loading := true
  error := none
  manualIp := ""
  useManual := false
  showReport := false
  reportPayload := { binId := "", note := "" }
  reportStatus := none

/-- `fetch` response success per the WHATWG spec: `res.ok` is true exactly
when the status is in the range 200..299. -/
def statusOk (status : Nat) : Bool :=
  200 ≤ status && status < 300

/-- Body of a successful `detect-role` response: all four fields are
optional in the code (`data?.role ?? ...` etc.). -/
structure DetectResponse where
  role : Option String
  source : Option String
  id : Option String
  description : Option String
deriving Repr, DecidableEq

/-- Outcome of the `fetch(DETECT_ENDPOINT, ...)` call in
`callDetectEndpoint`: either an HTTP response arrived (with a status and a
body that may or may not parse as JSON — `data := none` means `res.json()`
throws), or the fetch itself threw (network error). -/
inductive DetectFetchOutcome where
  | response (status : Nat) (data : Option DetectResponse)
  | netError
deriving Repr, DecidableEq

/-- `callDetectEndpoint(ip)` (`Home.jsx` lines 198-227) as a state
transformer.  On an ok status with a parsed body it replaces `roleInfo`
wholesale (`role` defaulting to `"user"`, `source` to the attempted `ip`,
`id` to `null`, `description` to `""`) and leaves `error` cleared; any
non-2xx status, JSON-parse failure or network error lands in the `catch`
branch, which sets the error banner and updates `roleInfo` via
`(s) => ({ ...s, role: "guest", source: ip })`.  The `finally` clause sets
`loading` to `false` on every path. -/
def callDetectEndpoint (s : HomeState) (ip : String) (o : DetectFetchOutcome) :
    HomeState :=
  let s0 := { s with loading := true, error := none }
  let failState : HomeState :=
    { s0 with
      error := some "Failed to detect role. Make sure backend is running and allows CORS."
      roleInfo := { s0.roleInfo with role := "guest", source := some ip }
      loading := false }
  match o with
  | .response status (some data) =>
    if statusOk status then
      { s0 with
        roleInfo :=
          { role := data.role.getD "user"
            source := some (data.source.getD ip)
            id := data.id
            description := some (data.description.getD "") }
        loading := false }
    else failState
  | .response _ none => failState
  | .netError => failState

/-- Body of the ipify lookup response; the `ip` field may be absent. -/
structure IpBody where
  ip : Option String
deriving Repr, DecidableEq

/-- Outcome of the `fetch("https://api.ipify.org?format=json")` call:
an HTTP response (whose body may fail to parse) or a thrown network
error. -/
inductive IpLookupOutcome where
  | response (status : Nat) (data : Option IpBody)
  | netError
deriving Repr, DecidableEq

/-- The IP produced by the lookup step of `detectRoleFlow` (lines 182-191):
`ip` starts as `""`; only an ok response with a parsed body sets
`ip = data.ip || ""` (JS falsiness: an absent or empty `ip` field yields
`""`); every throw is caught and leaves `""`. -/
def lookupIp (o : IpLookupOutcome) : String :=
  match o with
  | .response status (some data) =>
    if statusOk status then data.ip.getD "" else ""
  | .response _ none => ""
  | .netError => ""

/-- The fixed placeholder address of line 193. -/
def fallbackIp : String := "203.0.173.5"

/-- `detectRoleFlow()` (`Home.jsx` lines 172-196) as a state transformer.
It also returns the list of IPs submitted to the role-detection endpoint,
so that "issues exactly one role-detection call" is a statement about the
returned trace.  The manual branch runs when `useManual && manualIp` is
truthy (non-empty); otherwise the automatic branch resolves an IP via the
lookup, substituting `fallbackIp` when the lookup produced an empty
string (`if (!ip) ip = "203.0.173.5"`). -/
def detectRoleFlow (s : HomeState) (ipo : IpLookupOutcome)
    (deto : DetectFetchOutcome) : HomeState × List String :=
  let s0 := { s with loading := true, error := none }
  if s0.useManual && !s0.manualIp.isEmpty then
    ({ callDetectEndpoint s0 s0.manualIp deto with loading := false },
     [s0.manualIp])
  else
    let ip0 := lookupIp ipo
    let ip := if ip0.isEmpty then fallbackIp else ip0
    ({ callDetectEndpoint s0 ip deto with loading := false }, [ip])

/-- `normalizedRole` (line 163): `(roleInfo.role || "").toString().toLowerCase()`.
`role` is always a string in this model, and `"" || ""` is `""`, so this is
just `toLower`. -/
def normalizedRole (ri : RoleInfo) : String :=
  ri.role.toLower

/-- `showAdminButton` (line 164). -/
def showAdminButton (s : HomeState) : Bool :=
  normalizedRole s.roleInfo == "admin"

/-- Result of a navigation handler: the next state, the route navigated to
(if any), and the delay in milliseconds of a scheduled
`setError(null)` timeout (if one was scheduled). -/
structure NavResult where
  state : HomeState
  navTarget : Option String
  clearErrorAfterMs : Option Nat
deriving Repr, DecidableEq

/-- `handleAdminNavigate()` (`Home.jsx` lines 238-245): re-checks
`showAdminButton` — a function of the current `roleInfo` state — inside
the handler body; on failure it sets the denial notice and schedules
`setTimeout(() => setError(null), 2500)`, on success it navigates to
`"/admin"`. -/
def handleAdminNavigate (s : HomeState) : NavResult :=
  if !(showAdminButton s) then
    { state := { s with error := some "Access denied — admin IP not detected." }
      navTarget := none
      clearErrorAfterMs := some 2500 }
  else
    { state := s, navTarget := some "/admin", clearErrorAfterMs := none }

/-- Outcome of the `fetch(REPORT_ENDPOINT, ...)` call in `submitReport`:
the response body is never read on success, so only the status matters. -/
inductive ReportOutcome where
  | response (status : Nat)
  | netError
deriving Repr, DecidableEq

/-- `submitReport(e)` (`Home.jsx` lines 256-275) as a state transformer.
Sets a loading status, then: on an ok response sets a success status,
closes the modal and resets the payload; a non-2xx status throws
(`if (!res.ok) throw ...`) and, like a network error, is caught by the
branch that only sets the error status — the modal and payload are
untouched there.  (The `finally` clause additionally schedules a
3-second timeout clearing `reportStatus`, not modelled in the returned
state.) -/
def submitReport (s : HomeState) (o : ReportOutcome) : HomeState :=
  let s1 := { s with reportStatus := some { type := "loading", text := "Submitting report..." } }
  let failState : HomeState :=
    { s1 with reportStatus := some { type := "error", text := "Could not submit report (backend may be missing)." } }
  match o with
  | .response status =>
    if statusOk status then
      { s1 with
        reportStatus := some { type := "success", text := "Report submitted — thank you!" }
        showReport := false
        reportPayload := { binId := "", note := "" } }
    else failState
  | .netError => failState

/-- The marker-color conditional chain of `BinMap` (`Home.jsx` lines
103-117): the bin's `status` may be absent (`b.status || ""`), is
lowercased, and is mapped to red for `"overflow"`/`"full"`, blue for
`"ok"`/`"normal"`, and fallback yellow otherwise. -/
def markerColor (status : Option String) : String :=
  let st := (status.getD "").toLower
  if st = "overflow" then "#ef4444"
  else if st = "full" then "#ef4444"
  else if st = "ok" || st = "normal" then "#0ea5e9"
  else "#f59e0b"

example : markerColor (some "OVERFLOW") = "#ef4444" := by
  simp only [markerColor, Option.getD, String.toLower, String.map_eq]; decide
example : markerColor none = "#f59e0b" := by
  simp only [markerColor, Option.getD, String.toLower, String.map_eq]; decide
example : markerColor (some "Normal") = "#0ea5e9" := by
  simp only [markerColor, Option.getD, String.toLower, String.map_eq]; decide
example :
    (callDetectEndpoint initialHomeState "1.2.3.4" .netError).roleInfo.role
      = "guest" := by decide

/-! ## The haversine distance fragment (second app variant)

`Math.atan2` is modelled by the standard piecewise definition of the
two-argument arctangent over the reals (the JS specification's
`atan2(y, x)` on finite inputs): `arctan (y/x)` shifted by `±π` in the
left half-plane, `±π/2` on the positive/negative y-axis, and `0` at the
origin (and for `atan2(0, x)` with `x > 0`). -/

open Real in
/-- Two-argument arctangent, the mathematical function computed by JS
`Math.atan2(y, x)` for finite arguments. -/
noncomputable def atan2 (y x : ℝ) : ℝ :=
  if 0 < x then arctan (y / x)
  else if x < 0 ∧ 0 ≤ y then arctan (y / x) + π
  else if x < 0 ∧ y < 0 then arctan (y / x) - π
  else if x = 0 ∧ 0 < y then π / 2
  else if x = 0 ∧ y < 0 then -(π / 2)
  else 0

/-- The `toRad` helper of `haversineDistance`: `(deg * Math.PI) / 180`. -/
noncomputable def toRad (deg : ℝ) : ℝ := deg * Real.pi / 180

/-- The haversine central-angle operand `a` of `haversineDistance`
(`Home.jsx` second variant, line 530):
`Math.sin(dLat/2) * Math.sin(dLat/2) + Math.cos(toRad(lat1)) * Math.cos(toRad(lat2)) * Math.sin(dLon/2) * Math.sin(dLon/2)`
with `dLat = toRad(lat2 - lat1)` and `dLon = toRad(lon2 - lon1)`. -/
noncomputable def havA (lat1 lon1 lat2 lon2 : ℝ) : ℝ :=
  Real.sin (toRad (lat2 - lat1) / 2) * Real.sin (toRad (lat2 - lat1) / 2) +
    Real.cos (toRad lat1) * Real.cos (toRad lat2) *
      Real.sin (toRad (lon2 - lon1) / 2) * Real.sin (toRad (lon2 - lon1) / 2)

/-- `haversineDistance(lat1, lon1, lat2, lon2)` (second app variant, lines
524-534): `c = 2 * Math.atan2(Math.sqrt(a), Math.sqrt(1 - a))`, returned
distance `d = R * c` with `R = 6371` km. -/
noncomputable def haversineDistance (lat1 lon1 lat2 lon2 : ℝ) : ℝ :=
  let R : ℝ := 6371
  let a := havA lat1 lon1 lat2 lon2
  let c := 2 * atan2 (Real.sqrt a) (Real.sqrt (1 - a))
  R * c

/-- The distance function exactly as the specification words it: convert
the degree inputs to radians, form the haversine central angle
`a = sin²(Δlat/2) + cos(lat1)·cos(lat2)·sin²(Δlon/2)`,
`c = 2·atan2(√a, √(1−a))`, and return `6371·c`. -/
noncomputable def distanceKm_spec (lat1 lon1 lat2 lon2 : ℝ) : ℝ :=
  let φ1 := toRad lat1
  let φ2 := toRad lat2
  let la1 := toRad lon1
  let la2 := toRad lon2
  let a := Real.sin ((φ2 - φ1) / 2) ^ 2 +
    Real.cos φ1 * Real.cos φ2 * Real.sin ((la2 - la1) / 2) ^ 2
  6371 * (2 * atan2 (Real.sqrt a) (Real.sqrt (1 - a)))

/-! ## Claims about the role-detection / gating / report flow -/

/-- Predicate for the three IP-lookup failure shapes named by claim C2:
a thrown network error, a non-2xx response, or a response whose body
lacks an `ip` field (including an unparseable body). -/
def lookupFailed (o : IpLookupOutcome) : Bool :=
  match o with
  | .response status data =>
    !statusOk status ||
      (match data with
       | some b => b.ip.isNone
       | none => true)
  | .netError => true

/-- C1: for every IP string submitted to the role-detection endpoint, if
the endpoint returns a non-2xx response (or the call throws), the
resulting `RoleInfo` has `role = "guest"` and `source` equal to the IP
that was attempted, and a user-visible error is set (the handler returns
a state rather than propagating the exception, so the failure is not
fatal). -/
theorem C1_detect_failure_guest (s : HomeState) (ip : String)
    (status : Nat) (data : Option DetectResponse)
    (h : statusOk status = false) :
    ((callDetectEndpoint s ip (.response status data)).roleInfo.role = "guest" ∧
      (callDetectEndpoint s ip (.response status data)).roleInfo.source = some ip ∧
      (callDetectEndpoint s ip (.response status data)).error.isSome = true) ∧
    ((callDetectEndpoint s ip .netError).roleInfo.role = "guest" ∧
      (callDetectEndpoint s ip .netError).roleInfo.source = some ip ∧
      (callDetectEndpoint s ip .netError).error.isSome = true) := by
  constructor
  · cases data <;> simp [callDetectEndpoint, h]
  · simp [callDetectEndpoint]

/-- Witness for C1 at a concrete failing call: server status 500 with an
unreadable body, from the mount state, attempting `"1.2.3.4"`. -/
theorem C1_detect_failure_guest_witness :
    statusOk 500 = false ∧
    ((callDetectEndpoint initialHomeState "1.2.3.4" (.response 500 none)).roleInfo.role = "guest" ∧
      (callDetectEndpoint initialHomeState "1.2.3.4" (.response 500 none)).roleInfo.source = some "1.2.3.4" ∧
      (callDetectEndpoint initialHomeState "1.2.3.4" (.response 500 none)).error.isSome = true) ∧
    ((callDetectEndpoint initialHomeState "1.2.3.4" .netError).roleInfo.role = "guest" ∧
      (callDetectEndpoint initialHomeState "1.2.3.4" .netError).roleInfo.source = some "1.2.3.4" ∧
      (callDetectEndpoint initialHomeState "1.2.3.4" .netError).error.isSome = true) :=
  ⟨by decide, C1_detect_failure_guest initialHomeState "1.2.3.4" 500 none (by decide)⟩

/-- C2: for every outcome of the automatic IP-lookup step (network error
thrown, non-ok response, or a response whose body lacks an `ip` field),
the role-resolution flow still issues exactly one role-detection call,
using the fixed fallback address `"203.0.173.5"`; independently of the
lookup outcome, the flow always issues exactly one call (both conjuncts
being statements about a total function, no exception escapes). -/
theorem C2_lookup_failure_fallback (s : HomeState) (hm : s.useManual = false)
    (ipo : IpLookupOutcome) (deto : DetectFetchOutcome)
    (h : lookupFailed ipo = true) :
    (detectRoleFlow s ipo deto).2 = [fallbackIp] ∧
    (∀ (s2 : HomeState) (ipo2 : IpLookupOutcome),
      (detectRoleFlow s2 ipo2 deto).2.length = 1) := by
  have hempty : lookupIp ipo = "" := by
    cases ipo with
    | response st data =>
      cases data with
      | none => rfl
      | some b =>
        simp only [lookupFailed, Bool.or_eq_true, Bool.not_eq_true'] at h
        rcases h with h | h
        · simp [lookupIp, h]
        · cases hip : b.ip with
          | none => simp [lookupIp, hip]
          | some v => rw [hip] at h; simp at h
    | netError => rfl
  refine ⟨?_, ?_⟩
  · have he : ("" : String).isEmpty = true := by decide
    simp [detectRoleFlow, hm, hempty, he]
  · intro s2 ipo2
    by_cases hb : s2.useManual && !s2.manualIp.isEmpty <;>
      simp [detectRoleFlow, hb]

/-- Witness for C2 at a concrete lookup failure: a thrown network error
during the ipify call, from the mount state (automatic mode). -/
theorem C2_lookup_failure_fallback_witness :
    initialHomeState.useManual = false ∧ lookupFailed .netError = true ∧
    ((detectRoleFlow initialHomeState .netError .netError).2 = [fallbackIp] ∧
      (∀ (s2 : HomeState) (ipo2 : IpLookupOutcome),
        (detectRoleFlow s2 ipo2 .netError).2.length = 1)) :=
  ⟨rfl, rfl,
    C2_lookup_failure_fallback initialHomeState rfl .netError .netError rfl⟩

/-- C3: the admin-navigation action navigates exactly when the current
role, lowercased, is `"admin"` (so a server-supplied `"Admin"` passes);
otherwise it does not navigate, sets the denial notice, and schedules its
clearing 2500 ms later.  `handleAdminNavigate` is a function of the
current state, so the gate is re-evaluated on each invocation rather than
frozen at button-render time. -/
theorem C3_admin_gate (s : HomeState) :
    ((handleAdminNavigate s).navTarget = some "/admin" ↔
      normalizedRole s.roleInfo = "admin") ∧
    (normalizedRole s.roleInfo ≠ "admin" →
      (handleAdminNavigate s).navTarget = none ∧
      (handleAdminNavigate s).state.error =
        some "Access denied — admin IP not detected." ∧
      (handleAdminNavigate s).clearErrorAfterMs = some 2500) ∧
    normalizedRole { role := "Admin", source := none, id := none, description := none } = "admin" := by
  refine ⟨?_, ?_, ?_⟩
  · by_cases hc : normalizedRole s.roleInfo = "admin" <;>
      simp [handleAdminNavigate, showAdminButton, hc]
  · intro hc
    simp [handleAdminNavigate, showAdminButton, hc]
  · simp only [normalizedRole, String.toLower, String.map_eq]
    decide

/-- Witness for C3's denial branch at the mount state, whose role is
`"detecting"`. -/
theorem C3_admin_gate_witness :
    (handleAdminNavigate initialHomeState).navTarget = none ∧
    (handleAdminNavigate initialHomeState).state.error =
      some "Access denied — admin IP not detected." ∧
    (handleAdminNavigate initialHomeState).clearErrorAfterMs = some 2500 :=
  (C3_admin_gate initialHomeState).2.1
    (by simp only [normalizedRole, String.toLower, String.map_eq]; decide)

/-- C8: for every report submission whose endpoint call fails (non-2xx
status or thrown network error), the resulting report status is the
error kind, `showReport` is left as it was (the failure path never closes
the modal), and the entered report payload is unchanged for retry. -/
theorem C8_report_failure_keeps_modal (s : HomeState) (status : Nat)
    (h : statusOk status = false) :
    ((submitReport s (.response status)).reportStatus =
        some { type := "error", text := "Could not submit report (backend may be missing)." } ∧
      (submitReport s (.response status)).showReport = s.showReport ∧
      (submitReport s (.response status)).reportPayload = s.reportPayload) ∧
    ((submitReport s .netError).reportStatus =
        some { type := "error", text := "Could not submit report (backend may be missing)." } ∧
      (submitReport s .netError).showReport = s.showReport ∧
      (submitReport s .netError).reportPayload = s.reportPayload) := by
  constructor <;> simp [submitReport, h]

/-- Witness for C8: submitting `{ binId: "BIN-A", note: "full" }` with the
modal open, against an endpoint answering 500. -/
theorem C8_report_failure_keeps_modal_witness :
    statusOk 500 = false ∧
    (((submitReport { initialHomeState with showReport := true, reportPayload := { binId := "BIN-A", note := "full" } } (.response 500)).reportStatus =
        some { type := "error", text := "Could not submit report (backend may be missing)." } ∧
      (submitReport { initialHomeState with showReport := true, reportPayload := { binId := "BIN-A", note := "full" } } (.response 500)).showReport =
        ({ initialHomeState with showReport := true, reportPayload := { binId := "BIN-A", note := "full" } } : HomeState).showReport ∧
      (submitReport { initialHomeState with showReport := true, reportPayload := { binId := "BIN-A", note := "full" } } (.response 500)).reportPayload =
        ({ initialHomeState with showReport := true, reportPayload := { binId := "BIN-A", note := "full" } } : HomeState).reportPayload) ∧
    ((submitReport { initialHomeState with showReport := true, reportPayload := { binId := "BIN-A", note := "full" } } .netError).reportStatus =
        some { type := "error", text := "Could not submit report (backend may be missing)." } ∧
      (submitReport { initialHomeState with showReport := true, reportPayload := { binId := "BIN-A", note := "full" } } .netError).showReport =
        ({ initialHomeState with showReport := true, reportPayload := { binId := "BIN-A", note := "full" } } : HomeState).showReport ∧
      (submitReport { initialHomeState with showReport := true, reportPayload := { binId := "BIN-A", note := "full" } } .netError).reportPayload =
        ({ initialHomeState with showReport := true, reportPayload := { binId := "BIN-A", note := "full" } } : HomeState).reportPayload)) :=
  ⟨by decide,
    C8_report_failure_keeps_modal
      { initialHomeState with showReport := true, reportPayload := { binId := "BIN-A", note := "full" } }
      500 (by decide)⟩

/-- C9, counterexample to the claim as stated: the failure path does NOT
preserve `source` — at the mount state (`source = null`) a failed call
attempting `"1.2.3.4"` overwrites `source` with that attempted IP. -/
theorem C9_counterexample :
    (callDetectEndpoint initialHomeState "1.2.3.4" .netError).roleInfo.source ≠
      initialHomeState.roleInfo.source := by
  decide

/-- C9 as amended: on success the `RoleInfo` record is replaced wholesale
(all four fields determined by the response and the attempted IP, `role`
defaulting to `"user"` and `description` to `""` when absent), and it is
never partially mutated except by the failure path, which preserves `id`
and `description`, forces `role` to `"guest"`, and sets `source` to the
IP that was attempted. -/
theorem C9_roleInfo_replacement (s : HomeState) (ip : String)
    (d : DetectResponse) (status : Nat) (hok : statusOk status = true) :
    ((callDetectEndpoint s ip (.response status (some d))).roleInfo =
      { role := d.role.getD "user", source := some (d.source.getD ip),
        id := d.id, description := some (d.description.getD "") }) ∧
    ((callDetectEndpoint s ip .netError).roleInfo =
      { s.roleInfo with role := "guest", source := some ip }) ∧
    (∀ (st : Nat) (dat : Option DetectResponse), statusOk st = false →
      (callDetectEndpoint s ip (.response st dat)).roleInfo =
        { s.roleInfo with role := "guest", source := some ip }) ∧
    (∀ st : Nat, (callDetectEndpoint s ip (.response st none)).roleInfo =
      { s.roleInfo with role := "guest", source := some ip }) := by
  refine ⟨by simp [callDetectEndpoint, hok], by simp [callDetectEndpoint], ?_, ?_⟩
  · intro st dat hst
    cases dat <;> simp [callDetectEndpoint, hst]
  · intro st
    by_cases hst : statusOk st = true <;> simp [callDetectEndpoint, hst]

/-- Witness for C9's amended statement: a 200 response carrying only
`role = "Admin"`, attempted from the mount state with IP `"1.2.3.4"`. -/
theorem C9_roleInfo_replacement_witness :
    statusOk 200 = true ∧
    (callDetectEndpoint initialHomeState "1.2.3.4"
        (.response 200 (some { role := some "Admin", source := none, id := none, description := none }))).roleInfo =
      { role := "Admin", source := some "1.2.3.4", id := none, description := some "" } :=
  ⟨by decide,
    (C9_roleInfo_replacement initialHomeState "1.2.3.4"
      { role := some "Admin", source := none, id := none, description := none }
      200 (by decide)).1⟩

/-- C10: the marker color is a total, case-insensitive function of the
bin's status (an absent status behaves as `""`): `"overflow"`/`"full"`
map to `"#ef4444"`, `"ok"`/`"normal"` map to `"#0ea5e9"`, and everything
else to the fallback `"#f59e0b"`. -/
theorem C10_marker_color :
    (∀ s t : String, s.toLower = t.toLower →
      markerColor (some s) = markerColor (some t)) ∧
    markerColor none = markerColor (some "") ∧
    (∀ s : String, s.toLower = "overflow" ∨ s.toLower = "full" →
      markerColor (some s) = "#ef4444") ∧
    (∀ s : String, s.toLower = "ok" ∨ s.toLower = "normal" →
      markerColor (some s) = "#0ea5e9") ∧
    (∀ s : String, s.toLower ≠ "overflow" → s.toLower ≠ "full" →
      s.toLower ≠ "ok" → s.toLower ≠ "normal" →
      markerColor (some s) = "#f59e0b") := by
  refine ⟨?_, rfl, ?_, ?_, ?_⟩
  · intro s t h
    exact congrArg
      (fun w : String =>
        if w = "overflow" then "#ef4444"
        else if w = "full" then "#ef4444"
        else if w = "ok" || w = "normal" then "#0ea5e9"
        else "#f59e0b") h
  · intro s h
    rcases h with h | h <;> simp [markerColor, h]
  · intro s h
    rcases h with h | h <;> simp [markerColor, h]
  · intro s h1 h2 h3 h4
    simp [markerColor, h1, h2, h3, h4]

/-- Witness for C10 at a concrete status: `"FULL"` lowers to `"full"` and
gets the red marker. -/
theorem C10_marker_color_witness :
    markerColor (some "FULL") = "#ef4444" :=
  C10_marker_color.2.2.1 "FULL"
    (Or.inr (by simp only [String.toLower, String.map_eq]; decide))

/-! ## Claims about the haversine distance -/

/-- The two-argument arctangent is nonnegative whenever its first
argument (the `y` of `atan2(y, x)`) is nonnegative. -/
theorem atan2_nonneg (y x : ℝ) (hy : 0 ≤ y) : 0 ≤ atan2 y x := by
  unfold atan2
  split_ifs with h1 h2 h3 h4 h5
  · have hq : (0 : ℝ) ≤ y / x := div_nonneg hy h1.le
    have := Real.arctan_strictMono.monotone hq
    rwa [Real.arctan_zero] at this
  · have ha := Real.neg_pi_div_two_lt_arctan (y / x)
    have hπ := Real.pi_pos
    linarith
  · exact absurd hy (not_le.mpr h3.2)
  · linarith [Real.pi_pos]
  · exact absurd hy (not_le.mpr h5.2)
  · exact le_refl 0

/-- `atan2 0 1 = 0` (the value reached by the haversine code when the
central-angle operand is zero). -/
theorem atan2_zero_one : atan2 0 1 = 0 := by
  unfold atan2
  rw [if_pos one_pos, zero_div, Real.arctan_zero]

/-- C4: the distance function equals the haversine reference definition
worded by the spec (radian conversion, central angle
`a = sin²(Δlat/2) + cos·cos·sin²(Δlon/2)`, `c = 2·atan2(√a, √(1−a))`,
`6371·c`). -/
theorem C4_haversine_matches_spec (lat1 lon1 lat2 lon2 : ℝ) :
    haversineDistance lat1 lon1 lat2 lon2 = distanceKm_spec lat1 lon1 lat2 lon2 := by
  simp only [haversineDistance, distanceKm_spec, havA, toRad]
  ring_nf

/-- C5, counterexample to "zero iff identical": two distinct coordinate
pairs at the north pole (longitudes 0 and 90) are at haversine distance
zero. -/
theorem C5_counterexample :
    haversineDistance 90 0 90 90 = 0 ∧
      ¬(((90 : ℝ), (0 : ℝ)) = ((90 : ℝ), (90 : ℝ))) := by
  constructor
  · have ha : havA 90 0 90 90 = 0 := by
      simp only [havA, toRad]
      rw [show ((90 : ℝ) - 90) * Real.pi / 180 / 2 = 0 by ring]
      rw [show ((90 : ℝ)) * Real.pi / 180 = Real.pi / 2 by ring]
      rw [Real.sin_zero, Real.cos_pi_div_two]
      ring
    simp only [haversineDistance, ha]
    rw [Real.sqrt_zero, sub_zero, Real.sqrt_one, atan2_zero_one]
    ring
  · intro hcontra
    have := congrArg Prod.snd hcontra
    norm_num at this

/-- C5 as amended: the distance is nonnegative for all inputs and zero on
identical inputs; identical points therefore yield zero, but zero distance
does not imply identical coordinate pairs (see the pole counterexample). -/
theorem C5_nonneg_and_zero_on_diagonal :
    (∀ lat1 lon1 lat2 lon2 : ℝ, 0 ≤ haversineDistance lat1 lon1 lat2 lon2) ∧
    (∀ lat lon : ℝ, haversineDistance lat lon lat lon = 0) := by
  constructor
  · intro lat1 lon1 lat2 lon2
    simp only [haversineDistance]
    have h := atan2_nonneg (Real.sqrt (havA lat1 lon1 lat2 lon2))
      (Real.sqrt (1 - havA lat1 lon1 lat2 lon2)) (Real.sqrt_nonneg _)
    nlinarith [h]
  · intro lat lon
    have ha : havA lat lon lat lon = 0 := by
      simp only [havA, toRad, sub_self, zero_mul, zero_div, Real.sin_zero,
        mul_zero, add_zero]
    simp only [haversineDistance, ha]
    rw [Real.sqrt_zero, sub_zero, Real.sqrt_one, atan2_zero_one]
    ring

/-- C6: the distance function is symmetric in its two coordinate pairs,
exactly, over the reals. -/
theorem C6_haversine_symm (lat1 lon1 lat2 lon2 : ℝ) :
    haversineDistance lat1 lon1 lat2 lon2 = haversineDistance lat2 lon2 lat1 lon1 := by
  have hs : ∀ x y : ℝ,
      Real.sin ((x - y) * Real.pi / 180 / 2) = -Real.sin ((y - x) * Real.pi / 180 / 2) := by
    intro x y
    rw [show (x - y) * Real.pi / 180 / 2 = -((y - x) * Real.pi / 180 / 2) by ring,
      Real.sin_neg]
  have key : havA lat1 lon1 lat2 lon2 = havA lat2 lon2 lat1 lon1 := by
    simp only [havA, toRad]
    rw [hs lat2 lat1, hs lon2 lon1]
    ring
  simp only [haversineDistance]
  rw [key]

/-- `cos` of a latitude in `[-90, 90]` degrees, converted to radians, is
nonnegative. -/
theorem cos_toRad_nonneg (lat : ℝ) (h1 : -90 ≤ lat) (h2 : lat ≤ 90) :
    0 ≤ Real.cos (toRad lat) := by
  apply Real.cos_nonneg_of_neg_pi_div_two_le_of_le
  · simp only [toRad]
    nlinarith [Real.pi_pos]
  · simp only [toRad]
    nlinarith [Real.pi_pos]

/-- The product of the latitude cosines is bounded by `cos²` of half the
latitude difference (product-to-sum identity plus `cos ≤ 1`). -/
theorem cos_prod_le_cos_sq_half (lat1 lat2 : ℝ) :
    Real.cos (toRad lat1) * Real.cos (toRad lat2) ≤
      Real.cos (toRad (lat2 - lat1) / 2) ^ 2 := by
  have hc : Real.cos (toRad lat1) * Real.cos (toRad lat2) =
      (Real.cos (toRad lat1 - toRad lat2) + Real.cos (toRad lat1 + toRad lat2)) / 2 := by
    rw [Real.cos_sub, Real.cos_add]; ring
  have harg : toRad lat1 - toRad lat2 = -(2 * (toRad (lat2 - lat1) / 2)) := by
    simp only [toRad]; ring
  have hcu : Real.cos (toRad lat1 - toRad lat2) =
      2 * Real.cos (toRad (lat2 - lat1) / 2) ^ 2 - 1 := by
    rw [harg, Real.cos_neg, Real.cos_two_mul]
  have hle := Real.cos_le_one (toRad lat1 + toRad lat2)
  rw [hc, hcu]
  linarith

/-- C7: for latitudes in `[-90, 90]` and longitudes in `[-180, 180]`
(poles and antimeridian included), the central-angle operand `a` of
`haversineDistance` lies in `[0, 1]`, so both `√a` and `√(1−a)` take
nonnegative arguments and the result is well defined (no square root of a
negative number). -/
theorem C7_radicand_in_unit_interval (lat1 lon1 lat2 lon2 : ℝ)
    (hlat1l : -90 ≤ lat1) (hlat1u : lat1 ≤ 90)
    (hlat2l : -90 ≤ lat2) (hlat2u : lat2 ≤ 90)
    (hlon1l : -180 ≤ lon1) (hlon1u : lon1 ≤ 180)
    (hlon2l : -180 ≤ lon2) (hlon2u : lon2 ≤ 180) :
    0 ≤ havA lat1 lon1 lat2 lon2 ∧ havA lat1 lon1 lat2 lon2 ≤ 1 := by
  have hc1 := cos_toRad_nonneg lat1 hlat1l hlat1u
  have hc2 := cos_toRad_nonneg lat2 hlat2l hlat2u
  have expand : havA lat1 lon1 lat2 lon2 =
      Real.sin (toRad (lat2 - lat1) / 2) ^ 2 +
        Real.cos (toRad lat1) * Real.cos (toRad lat2) *
          Real.sin (toRad (lon2 - lon1) / 2) ^ 2 := by
    simp only [havA]; ring
  constructor
  · rw [expand]
    exact add_nonneg (sq_nonneg _)
      (mul_nonneg (mul_nonneg hc1 hc2) (sq_nonneg _))
  · rw [expand]
    nlinarith [cos_prod_le_cos_sq_half lat1 lat2,
      Real.sin_sq_add_cos_sq (toRad (lat2 - lat1) / 2),
      Real.sin_sq_le_one (toRad (lon2 - lon1) / 2),
      sq_nonneg (Real.sin (toRad (lon2 - lon1) / 2)),
      mul_nonneg hc1 hc2,
      sq_nonneg (Real.cos (toRad (lat2 - lat1) / 2))]

/-- Witness for C7 at the extreme corner of the valid range: the north
pole on the antimeridian against the south pole on the opposite side. -/
theorem C7_radicand_in_unit_interval_witness :
    0 ≤ havA 90 180 (-90) (-180) ∧ havA 90 180 (-90) (-180) ≤ 1 :=
  C7_radicand_in_unit_interval 90 180 (-90) (-180)
    (by norm_num) (by norm_num) (by norm_num) (by norm_num)
    (by norm_num) (by norm_num) (by norm_num) (by norm_num)
